import Mathlib

/-!
Verification development for the DesktopPet behavior engine.

This file shallowly embeds the behavior state machine, physics integrator,
animation clock and population manager of `333.py` (the most complete
variant of the repository; `pet_V3.py` shares the same structure for the
functions treated here except where noted in doc comments).  Positions,
velocities and random draws are modelled as exact rationals; Qt rectangle
accessors (`left`, `right`, `top`, `bottom`, `center().x()`) become fields
of an abstract `Rect`.  Randomness is passed in explicitly: every
`random.random()` call of a function becomes a rational parameter in
`[0,1)`, and `random.choices(options, weights=[20,30,30,20])` becomes the
cumulative-weight selection on a single uniform draw, exactly as Python's
implementation (`bisect_right` over cumulative weights `[20,50,80,100]`
applied to `u * 100`).  GUI side effects (window moves, painting, tray
icons) are dropped; the `update_image` frame-index clamp, which does
mutate state, is kept as `update_image_clamp`.
-/

namespace DesktopPet

/-- The closed enumeration of character states, from the keys of the
`ACTIONS` table in `333.py`. -/
inductive PetState where
  | born | fly | drag_throw | drop
  | idle | walk | run | standup
  | sit | sit_idle | sitloop
  | wall_idle | wall_climb | wall_descend | ceiling_walk
  | drag_left_slow | drag_left_fast | drag_right_slow | drag_right_fast
  | ie_walk | struggle
  deriving DecidableEq, Repr

/-- The wander (patrol) modifier: Python uses `None`, `"wall"`,
`"ceiling"`, `"full"`. -/
inductive WanderMode where
  | none | wall | ceiling | full
  deriving DecidableEq, Repr

/-- The usable rectangle of a monitor, with Qt accessor semantics
(`left`, `right`, `top`, `bottom` are the edge coordinates returned by
`QRect`).  Fields are rationals since pet coordinates are continuous. -/
structure Rect where
  left : ℚ
  right : ℚ
  top : ℚ
  bottom : ℚ
  deriving DecidableEq, Repr

/-- The accessor `QRect.center().x()`: the horizontal midpoint.  Qt truncates to an
integer; the claims treated here never depend on that truncation, so the
exact rational midpoint is used. -/
def Rect.centerX (r : Rect) : ℚ := (r.left + r.right) / 2

/-- One animation frame: image file name and duration in milliseconds. -/
structure Frame where
  img : String
  dur : Nat
  deriving DecidableEq, Repr

/-- Zero-pad a natural number to five digits, as Python's `f"{i:05d}"`. -/
def pad5 (n : Nat) : String :=
  let s := toString n
  String.mk (List.replicate (5 - s.length) '0') ++ s

/-- Build the frame list `[{"img": f"<stem>{i:05d}.png", "dur": d} for i
in range(lo, lo+count)]`. -/
def mkFrames (stem : String) (lo count d : Nat) : List Frame :=
  (List.range count).map (fun i => ⟨stem ++ pad5 (lo + i) ++ ".png", d⟩)

/-- The `ACTIONS` table of `333.py`: for every state, its ordered frame
sequence. -/
def ACTIONS : PetState → List Frame
  | .born => mkFrames "born" 0 6 300
  | .fly => [⟨"fly.png", 100⟩]
  | .drag_throw => [⟨"drag00004.png", 100⟩]
  | .drop => [⟨"drop.png", 100⟩]
  | .idle => [⟨"idle.png", 3000⟩]
  | .walk => mkFrames "walk" 0 11 150
  | .run => mkFrames "walk" 11 9 100
  | .standup => mkFrames "standup" 0 3 150
  | .sit => mkFrames "sit" 0 10 150
  | .sit_idle => [⟨"sit00009.png", 2000⟩]
  | .sitloop => mkFrames "sitloop" 0 19 150
  | .wall_idle => [⟨"wall00000.png", 3000⟩]
  | .wall_climb => mkFrames "wall" 1 11 180
  | .wall_descend => mkFrames "wall" 1 11 180
  | .ceiling_walk => mkFrames "ceiling" 0 8 120
  | .drag_left_slow => [⟨"drag00001.png", 100⟩]
  | .drag_left_fast => [⟨"drag00002.png", 100⟩]
  | .drag_right_slow => [⟨"drag00003.png", 100⟩]
  | .drag_right_fast => [⟨"drag00002.png", 100⟩]
  | .ie_walk => mkFrames "ie" 0 11 150
  | .struggle => mkFrames "struggle" 0 3 120

/-- Constant `MAX_PETS = 5` in `333.py`; kept as a `Manager` field because the
spec treats the maximum as configurable (and `pet_V3.py` adjusts it at
runtime). -/
def MAX_PETS : Nat := 5

/-- Constant `FLOOR_OFFSET = 50`. -/
def FLOOR_OFFSET : ℚ := 50

/-- Constant `RIGHT_WALL_OFFSET = 55`. -/
def RIGHT_WALL_OFFSET : ℚ := 55

/-- The mutable per-character state of `DesktopPet` that the behavior
engine reads and writes: position, velocity, facing, state, animation
counters, control toggles and the cached monitor rectangle. -/
structure Pet where
  x : ℚ
  y : ℚ
  vx : ℚ
  vy : ℚ
  gravity : ℚ
  state : PetState
  look_right : Bool
  is_fixed : Bool
  wander_mode : WanderMode
  frame_index : Nat
  frame_timer : Nat
  is_dragging : Bool
  ceiling_dist : ℚ
  screen_rect : Rect
  deriving DecidableEq, Repr

/-- The state-mutating part of `update_image` (lines 687 in `333.py`):
a defensive clamp resetting `frame_index` to 0 when it is out of range
for the current state's sequence.  The rendering part is dropped. -/
def update_image_clamp (p : Pet) : Pet :=
  if p.frame_index ≥ (ACTIONS p.state).length then { p with frame_index := 0 } else p

/-- Method `set_state` (lines 643-649): no-op when the state is unchanged;
otherwise reset `ceiling_dist` when entering `ceiling_walk`, switch the
state, zero the frame counters and refresh the image. -/
def set_state (new : PetState) (p : Pet) : Pet :=
  if p.state = new then p
  else
    let p1 := if new = PetState.ceiling_walk then { p with ceiling_dist := 0 } else p
    update_image_clamp { p1 with state := new, frame_index := 0, frame_timer := 0 }

/-- Method `respawn_at_top` (lines 412-418): teleport to top-center of the
current monitor, reset velocity to a small downward seed, enter `drop`. -/
def respawn_at_top (p : Pet) : Pet :=
  set_state PetState.drop
    { p with x := p.screen_rect.centerX - 64, y := p.screen_rect.top - 128,
             vx := 0, vy := 2 }

/-- The `DesktopPet.__init__` fields relevant to the behavior engine
(lines 101-131): given a start position, start state and the monitor
rectangle that the (external) geometry lookup returns. -/
def initPet (rect : Rect) (x0 y0 : ℚ) (st : PetState) : Pet :=
  { x := x0, y := y0, vx := 0, vy := 0, gravity := 2, state := st,
    look_right := true, is_fixed := false, wander_mode := WanderMode.none,
    frame_index := 0, frame_timer := 0, is_dragging := false,
    ceiling_dist := 0, screen_rect := rect }

/-- Lines 448-451 of `update_physics_air`: `x += vx; y += vy;
vy += gravity; vx *= 0.98`.  Each statement reads the pre-statement
values it mentions, so the combined record update is exact. -/
def air_integrate (p : Pet) : Pet :=
  { p with x := p.x + p.vx, y := p.y + p.vy, vy := p.vy + p.gravity,
           vx := p.vx * (98 / 100) }

/-- Lines 453-458 of `update_physics_air`: relabel the state from the
already-damped `vx`; the facing is written only on an actual state
change (the writes sit behind `if self.state != ...`). -/
def air_relabel (p : Pet) : Pet :=
  if p.vx < -2 then
    if p.state ≠ PetState.fly then
      { set_state PetState.fly p with look_right := false }
    else p
  else if p.vx > 2 then
    if p.state ≠ PetState.drag_throw then
      { set_state PetState.drag_throw p with look_right := true }
    else p
  else
    if p.state ≠ PetState.drop then set_state PetState.drop p else p

/-- Lines 460-487 of `update_physics_air`: the abyss check (an early
return through `respawn_at_top`), then the floor clamp, then the
wall-edge clamps. -/
def air_collide (p : Pet) : Pet :=
  let stand_y := p.screen_rect.bottom - 128 - FLOOR_OFFSET
  let abyss_threshold := p.screen_rect.bottom - 80
  if p.y > abyss_threshold then respawn_at_top p
  else
    let p :=
      if p.y ≥ stand_y then
        set_state PetState.idle { p with y := stand_y, vx := 0, vy := 0 }
      else p
    let left_bound := p.screen_rect.left
    let right_bound := p.screen_rect.right - 128 - RIGHT_WALL_OFFSET
    if p.x ≤ left_bound then
      set_state PetState.wall_idle
        { p with x := left_bound, vx := 0, vy := 0, look_right := false }
    else if p.x ≥ right_bound then
      set_state PetState.wall_idle
        { p with x := right_bound, vx := 0, vy := 0, look_right := true }
    else p

/-- Method `update_physics_air` (lines 447-487), as the sequential composition
of its three paragraphs. -/
def update_physics_air (p : Pet) : Pet :=
  air_collide (air_relabel (air_integrate p))

/-- Method `to_ceiling` (lines 560-567): enter `ceiling_walk` anchored just
inside whichever side edge `x` currently sits at. -/
def to_ceiling (l r : ℚ) (p : Pet) : Pet :=
  let p := set_state PetState.ceiling_walk p
  if |p.x - l| < 50 then { p with look_right := true, x := l + 5 }
  else { p with look_right := false, x := r - 5 }

/-- Lines 493-498 of `update_physics_wall`: pin `x` to a wall —
left wall when `x < left_bound + 64`, right wall otherwise — and face
accordingly. -/
def wall_snap (p : Pet) : Pet :=
  if p.x < p.screen_rect.left + 64 then
    { p with x := p.screen_rect.left, look_right := false }
  else
    { p with x := p.screen_rect.right - 128 - RIGHT_WALL_OFFSET, look_right := true }

/-- Lines 500-508 of `update_physics_wall`: the `wall_idle` branch,
with the tick's `random` draw passed in as `u`. -/
def wall_idle_branch (u : ℚ) (p : Pet) : Pet :=
  if p.wander_mode = WanderMode.wall ∨ p.wander_mode = WanderMode.full then
    set_state PetState.wall_climb p
  else if u < 2 / 100 then
    if p.y ≤ p.screen_rect.top + 10 then set_state PetState.wall_descend p
    else set_state PetState.wall_climb p
  else p

/-- Lines 516-546 of `update_physics_wall`: the decision taken at the
moment a climbing pet reaches the monitor top (`y` already clamped to
the top by the caller).  `random.choices(["idle","descend","ceiling",
"jump"], weights=[20,30,30,20])` is modelled by comparing `u * 100`
with the cumulative weights `20, 50, 80` (Python's `bisect_right`
selection on a single uniform draw). -/
def wall_climb_top (u : ℚ) (p : Pet) : Pet :=
  let left_bound := p.screen_rect.left
  let right_bound := p.screen_rect.right - 128 - RIGHT_WALL_OFFSET
  if p.wander_mode = WanderMode.wall then set_state PetState.wall_descend p
  else if p.wander_mode = WanderMode.ceiling ∨ p.wander_mode = WanderMode.full then
    to_ceiling left_bound right_bound p
  else
    if u * 100 < 20 then set_state PetState.wall_idle p
    else if u * 100 < 50 then set_state PetState.wall_descend p
    else if u * 100 < 80 then to_ceiling left_bound right_bound p
    else
      let p := { p with vy := -4 }
      let p :=
        if ¬p.look_right then
          { set_state PetState.drag_throw { p with vx := 8 } with look_right := true }
        else
          { set_state PetState.fly { p with vx := -8 } with look_right := false }
      if p.look_right then { p with x := p.x + 10 } else { p with x := p.x - 10 }

/-- Lines 548-558 of `update_physics_wall`: the `wall_descend` branch. -/
def wall_descend_branch (p : Pet) : Pet :=
  let p := if ¬p.is_fixed then { p with y := p.y + 5 } else p
  let stand_y := p.screen_rect.bottom - 128 - FLOOR_OFFSET
  if p.y ≥ stand_y then
    let p := { p with y := stand_y }
    if p.wander_mode = WanderMode.wall then set_state PetState.wall_climb p
    else set_state PetState.idle p
  else p

/-- Method `update_physics_wall` (lines 489-558): the unconditional horizontal
snap, then the branch on the current wall state.  In the `wall_climb`
branch `y` steps up by 5 (unless pinned) and control falls into
`wall_climb_top` exactly when the top is reached. -/
def update_physics_wall (u : ℚ) (p : Pet) : Pet :=
  let p := wall_snap p
  if p.state = PetState.wall_idle then wall_idle_branch u p
  else if p.state = PetState.wall_climb then
    let p := if ¬p.is_fixed then { p with y := p.y - 5 } else p
    if p.y ≤ p.screen_rect.top then
      wall_climb_top u { p with y := p.screen_rect.top }
    else p
  else if p.state = PetState.wall_descend then wall_descend_branch p
  else p

/-- Lines 570-579 of `update_physics_ceiling`: pin `y` to the top and
step `x` by the ceiling speed (3, or 0 when pinned) in the facing
direction, accumulating `ceiling_dist`. -/
def ceil_move (p : Pet) : Pet :=
  let p := { p with y := p.screen_rect.top }
  let speed : ℚ := if p.is_fixed then 0 else 3
  let p := if p.look_right then { p with x := p.x + speed } else { p with x := p.x - speed }
  { p with ceiling_dist := p.ceiling_dist + speed }

/-- Lines 590-611 of `update_physics_ceiling`: the side-edge checks. -/
def ceil_edges (p : Pet) : Pet :=
  let left_bound := p.screen_rect.left
  let right_bound := p.screen_rect.right - 128 - RIGHT_WALL_OFFSET
  if p.x ≤ left_bound then
    let p := { p with x := left_bound }
    if p.wander_mode = WanderMode.ceiling then { p with look_right := true }
    else if p.wander_mode = WanderMode.full then set_state PetState.wall_descend p
    else { set_state PetState.drop p with vy := 0 }
  else if p.x ≥ right_bound then
    let p := { p with x := right_bound }
    if p.wander_mode = WanderMode.ceiling then { p with look_right := false }
    else if p.wander_mode = WanderMode.full then set_state PetState.wall_descend p
    else { set_state PetState.drop p with vy := 0 }
  else p

/-- Method `update_physics_ceiling` (lines 569-611), with the tick's `random`
draw passed in as `u`: move along the ceiling, possibly drop off
spontaneously (no patrol mode, distance-dependent probability, early
return), else run the edge checks. -/
def update_physics_ceiling (u : ℚ) (p : Pet) : Pet :=
  let p := ceil_move p
  if p.wander_mode = WanderMode.none ∧ p.ceiling_dist > 300 ∧
      u < (if p.ceiling_dist > 800 then 5 / 100 else 5 / 1000 : ℚ) then
    { set_state PetState.drop p with vy := 0 }
  else ceil_edges p

/-- Lines 621-638 of `update_physics_floor`: the side-edge checks for a
locomoting floor pet. -/
def floor_edges (p : Pet) : Pet :=
  let left_bound := p.screen_rect.left
  let right_bound := p.screen_rect.right - 128 - RIGHT_WALL_OFFSET
  if p.x ≤ left_bound then
    let p := { p with x := left_bound, look_right := false }
    if p.wander_mode = WanderMode.full then set_state PetState.wall_climb p
    else set_state PetState.wall_idle p
  else if p.x ≥ right_bound then
    let p := { p with x := right_bound, look_right := true }
    if p.wander_mode = WanderMode.full then set_state PetState.wall_climb p
    else set_state PetState.wall_idle p
  else p

/-- Method `update_physics_floor` (lines 613-638): only `walk`, `run` and
`ie_walk` move (speed 5 for `run`, otherwise 2, zeroed when pinned);
then the edge checks. -/
def update_physics_floor (p : Pet) : Pet :=
  if p.state = PetState.walk ∨ p.state = PetState.run ∨ p.state = PetState.ie_walk then
    let speed : ℚ := if p.state = PetState.run then 5 else 2
    let speed := if p.is_fixed then 0 else speed
    floor_edges { p with x := p.x + (if p.look_right then speed else -speed) }
  else p

/-- Method `decide_ai` (lines 651-673), with the uniform draw `r` and the
population manager's `can_spawn()` answer passed in. -/
def decide_ai (r : ℚ) (canSp : Bool) (p : Pet) : Pet :=
  if p.is_fixed then
    if p.state ≠ PetState.idle then set_state PetState.idle p else p
  else if p.wander_mode = WanderMode.full ∧ p.state = PetState.idle then
    set_state PetState.walk p
  else if p.state = PetState.idle then
    if r < 5 / 100 then
      if canSp then set_state PetState.born p else p
    else if r < 3 / 10 then set_state PetState.walk p
    else if r < 35 / 100 then set_state PetState.run p
    else if r < 4 / 10 then set_state PetState.sit p
    else if r < 1 / 2 then { p with look_right := !p.look_right }
    else p
  else if p.state = PetState.walk ∨ p.state = PetState.run ∨ p.state = PetState.ie_walk then
    if r < 1 / 10 then set_state PetState.idle p else p
  else p

/-- Method `on_action_finished` (lines 388-407), with the tick's first random
draw `r` and the spawn-capacity answer passed in.  The `born` branch's
`spawn_clone()` call only affects the manager (modelled separately in
`spawn_clone`); its effect on this pet is the subsequent `set_state`. -/
def on_action_finished (r : ℚ) (canSp : Bool) (p : Pet) : Pet :=
  if p.state = PetState.born then set_state PetState.idle p
  else if p.state = PetState.sit then set_state PetState.sit_idle p
  else if p.state = PetState.sit_idle then
    if r < 3 / 10 then set_state PetState.standup p else set_state PetState.sitloop p
  else if p.state = PetState.sitloop then
    if r < 1 / 2 then set_state PetState.sit_idle p else set_state PetState.standup p
  else if p.state = PetState.standup then set_state PetState.idle p
  else if p.state = PetState.idle ∨ p.state = PetState.walk ∨ p.state = PetState.run ∨
      p.state = PetState.ie_walk then
    decide_ai r canSp p
  else p

/-- Method `update_animation_frame` (lines 374-386): clamp a stale index,
advance the frame timer by the 30 ms tick, step the frame index when the
current frame's duration elapses, and fire `on_action_finished` exactly
when the index wraps to zero.  Ends with `update_image`'s clamp. -/
def update_animation_frame (r : ℚ) (canSp : Bool) (p : Pet) : Pet :=
  let frames := ACTIONS p.state
  let p := if p.frame_index ≥ frames.length then { p with frame_index := 0 } else p
  let d := (frames.getD p.frame_index ⟨"", 0⟩).dur
  let p := { p with frame_timer := p.frame_timer + 30 }
  let p :=
    if p.frame_timer ≥ d then
      let p := { p with frame_timer := 0, frame_index := p.frame_index + 1 }
      if p.frame_index ≥ frames.length then
        on_action_finished r canSp { p with frame_index := 0 }
      else p
    else p
  update_image_clamp p

/-- The external inputs one `update_tick` call consumes: the monitor
rectangle the geometry lookup would return, the first and second
`random.random()` draws of the tick (at most one is consumed in the
animation/AI phase and at most one in the physics phase), and the
population manager's capacity answer. -/
structure Env where
  rect : Rect
  rA : ℚ
  rP : ℚ
  canSp : Bool

/-- Method `update_screen_info` (lines 361-372): the cached rectangle is frozen
while in wall/ceiling states, otherwise refreshed from the geometry
lookup (passed in as `rect`). -/
def update_screen_info (rect : Rect) (p : Pet) : Pet :=
  if p.state = PetState.wall_climb ∨ p.state = PetState.wall_descend ∨
      p.state = PetState.wall_idle ∨ p.state = PetState.ceiling_walk then p
  else { p with screen_rect := rect }

/-- Method `update_tick` (lines 332-359): refresh screen info, run the
animation clock (which may fire AI transitions), then — unless dragging,
or pinned in a non-air state — dispatch physics by kinematic class. -/
def update_tick (e : Env) (p : Pet) : Pet :=
  let p := update_screen_info e.rect p
  let p := update_animation_frame e.rA e.canSp p
  if p.is_dragging then p
  else if p.is_fixed ∧ ¬(p.state = PetState.drag_throw ∨ p.state = PetState.fly ∨
      p.state = PetState.drop) then p
  else
    match p.state with
    | .born | .sit | .sitloop | .sit_idle | .standup | .struggle =>
        { p with vx := 0, vy := 0 }
    | .fly | .drop | .drag_throw => update_physics_air p
    | .wall_idle | .wall_climb | .wall_descend => update_physics_wall e.rP p
    | .ceiling_walk => update_physics_ceiling e.rP p
    | .idle | .walk | .run | .ie_walk => update_physics_floor p
    | _ => p

/-- Run a sequence of ticks, one `Env` per tick. -/
def run_ticks : List Env → Pet → Pet
  | [], p => p
  | e :: es, p => run_ticks es (update_tick e p)

/-- The population manager (`PetManager`, lines 63-80): the list of live
pets and the configured maximum. -/
structure Manager where
  pets : List Pet
  maxPets : Nat

/-- Method `PetManager.can_spawn` (line 75). -/
def can_spawn (m : Manager) : Bool := m.pets.length < m.maxPets

/-- Method `spawn_clone` (lines 675-680): silently refuse at capacity;
otherwise construct a new pet at the origin pet's position plus
`(+20, -20)`, in `drop`, seeded with `vy = -5` and `vx = ±2` in the
origin's facing direction, and register it.  The clone's monitor
rectangle comes from the external geometry lookup (`geom`). -/
def spawn_clone (geom : Rect) (src : Pet) (m : Manager) : Manager :=
  if ¬can_spawn m then m
  else
    let np := initPet geom (src.x + 20) (src.y - 20) PetState.drop
    let np := { np with vy := -5, vx := if src.look_right then 2 else -2 }
    { m with pets := m.pets ++ [np] }

/-! ### Helper lemmas about `set_state` and the frame-index invariant -/

@[simp]
theorem set_state_state (s : PetState) (p : Pet) : (set_state s p).state = s := by
  simp only [set_state, update_image_clamp]
  split
  · assumption
  · split <;> split <;> rfl

@[simp]
theorem set_state_x (s : PetState) (p : Pet) : (set_state s p).x = p.x := by
  simp only [set_state, update_image_clamp]
  split
  · rfl
  · split <;> split <;> rfl

@[simp]
theorem set_state_y (s : PetState) (p : Pet) : (set_state s p).y = p.y := by
  simp only [set_state, update_image_clamp]
  split
  · rfl
  · split <;> split <;> rfl

@[simp]
theorem set_state_vx (s : PetState) (p : Pet) : (set_state s p).vx = p.vx := by
  simp only [set_state, update_image_clamp]
  split
  · rfl
  · split <;> split <;> rfl

@[simp]
theorem set_state_vy (s : PetState) (p : Pet) : (set_state s p).vy = p.vy := by
  simp only [set_state, update_image_clamp]
  split
  · rfl
  · split <;> split <;> rfl

@[simp]
theorem set_state_look (s : PetState) (p : Pet) :
    (set_state s p).look_right = p.look_right := by
  simp only [set_state, update_image_clamp]
  split
  · rfl
  · split <;> split <;> rfl

@[simp]
theorem set_state_rect (s : PetState) (p : Pet) :
    (set_state s p).screen_rect = p.screen_rect := by
  simp only [set_state, update_image_clamp]
  split
  · rfl
  · split <;> split <;> rfl

@[simp]
theorem set_state_fixed (s : PetState) (p : Pet) :
    (set_state s p).is_fixed = p.is_fixed := by
  simp only [set_state, update_image_clamp]
  split
  · rfl
  · split <;> split <;> rfl

@[simp]
theorem set_state_wander (s : PetState) (p : Pet) :
    (set_state s p).wander_mode = p.wander_mode := by
  simp only [set_state, update_image_clamp]
  split
  · rfl
  · split <;> split <;> rfl

@[simp]
theorem set_state_gravity (s : PetState) (p : Pet) :
    (set_state s p).gravity = p.gravity := by
  simp only [set_state, update_image_clamp]
  split
  · rfl
  · split <;> split <;> rfl

@[simp]
theorem air_relabel_x (p : Pet) : (air_relabel p).x = p.x := by
  unfold air_relabel; split_ifs <;> simp

@[simp]
theorem air_relabel_y (p : Pet) : (air_relabel p).y = p.y := by
  unfold air_relabel; split_ifs <;> simp

@[simp]
theorem air_relabel_vx (p : Pet) : (air_relabel p).vx = p.vx := by
  unfold air_relabel; split_ifs <;> simp

@[simp]
theorem air_relabel_vy (p : Pet) : (air_relabel p).vy = p.vy := by
  unfold air_relabel; split_ifs <;> simp

@[simp]
theorem air_relabel_rect (p : Pet) : (air_relabel p).screen_rect = p.screen_rect := by
  unfold air_relabel; split_ifs <;> simp

/-! ### Claim theorems -/

/-- Claim C1, counterexample. The claim predicts that any `wall_climb`
character strictly left of the screen midpoint snaps to
`boundsRect.left` in one wall tick.  On a 1920-wide monitor, `x = 500`
is strictly left of the midpoint `960`, yet one wall tick pins the
character to the right wall (`x = 1737`), not to `left = 0`: the code's
snap threshold is `left + 64`, not the midpoint. -/
theorem wall_snap_midpoint_c1_cex :
    ({ x := 500, y := 500, vx := 0, vy := 0, gravity := 2,
       state := PetState.wall_climb, look_right := false, is_fixed := false,
       wander_mode := WanderMode.none, frame_index := 0, frame_timer := 0,
       is_dragging := false, ceiling_dist := 0,
       screen_rect := ⟨0, 1920, 0, 1080⟩ } : Pet).x <
      (((0 : ℚ) + 1920) / 2) ∧
    (update_physics_wall 0
      { x := 500, y := 500, vx := 0, vy := 0, gravity := 2,
        state := PetState.wall_climb, look_right := false, is_fixed := false,
        wander_mode := WanderMode.none, frame_index := 0, frame_timer := 0,
        is_dragging := false, ceiling_dist := 0,
        screen_rect := ⟨0, 1920, 0, 1080⟩ }).x = 1737 ∧
    ¬(update_physics_wall 0
      { x := 500, y := 500, vx := 0, vy := 0, gravity := 2,
        state := PetState.wall_climb, look_right := false, is_fixed := false,
        wander_mode := WanderMode.none, frame_index := 0, frame_timer := 0,
        is_dragging := false, ceiling_dist := 0,
        screen_rect := ⟨0, 1920, 0, 1080⟩ }).x = (0 : ℚ) := by
  refine ⟨by norm_num, ?_, ?_⟩ <;>
  · norm_num [update_physics_wall, wall_snap, RIGHT_WALL_OFFSET]
    rw [if_neg (by decide)]
    try norm_num

/-- Claim C1, amended. For every starting `x` strictly below
`boundsRect.left + 64` (the code's actual left-half threshold — not the
screen midpoint), a `wall_climb` character that does not reach the
monitor top during the tick has, after one wall physics tick,
`x = boundsRect.left` exactly: the snap is immediate, with no partial
approach. -/
theorem wall_snap_left_c1 (u : ℚ) (p : Pet)
    (hs : p.state = PetState.wall_climb)
    (hx : p.x < p.screen_rect.left + 64)
    (hy : p.screen_rect.top < p.y - 5) :
    (update_physics_wall u p).x = p.screen_rect.left := by
  have hsnap : wall_snap p =
      { p with x := p.screen_rect.left, look_right := false } := by
    unfold wall_snap; rw [if_pos hx]
  cases hf : p.is_fixed <;>
  · simp only [update_physics_wall, hsnap, hs, hf]
    split_ifs <;>
      first
        | (exfalso; simp_all <;> linarith)
        | simp

/-- Witness for amended C1: a left-side climbing pet far from the top
snaps to the left edge in one tick. -/
theorem wall_snap_left_c1_witness :
    (({ initPet ⟨0, 1920, 0, 1080⟩ 10 500 PetState.wall_climb with
        look_right := false } : Pet).state = PetState.wall_climb ∧
     ({ initPet ⟨0, 1920, 0, 1080⟩ 10 500 PetState.wall_climb with
        look_right := false } : Pet).x < (0 : ℚ) + 64) ∧
    (update_physics_wall 0 { initPet ⟨0, 1920, 0, 1080⟩ 10 500 PetState.wall_climb with
        look_right := false }).x = 0 :=
  ⟨⟨by decide, by norm_num [initPet]⟩,
   wall_snap_left_c1 0
     { initPet ⟨0, 1920, 0, 1080⟩ 10 500 PetState.wall_climb with look_right := false }
     (by decide) (by norm_num [initPet]) (by norm_num [initPet])⟩

/-- Claim C2. Starting a tick in state `drop` with
`y = boundsRect.bottom - 79` and `vy = 0`, one air-physics tick fires
the abyss respawn: afterwards `x` is the monitor's horizontal center
minus 64, `y = boundsRect.top - 128`, the state is `drop` and `vy = 2`
(with `vx` zeroed); the floor and wall-edge checks are skipped (their
clamps leave no trace in the result, which is exactly the respawn
pose). -/
theorem abyss_recovery_c2 (p : Pet) (hs : p.state = PetState.drop)
    (hy : p.y = p.screen_rect.bottom - 79) (hv : p.vy = 0) :
    (update_physics_air p).x = p.screen_rect.centerX - 64 ∧
    (update_physics_air p).y = p.screen_rect.top - 128 ∧
    (update_physics_air p).state = PetState.drop ∧
    (update_physics_air p).vy = 2 ∧ (update_physics_air p).vx = 0 := by
  have h1 : (air_relabel (air_integrate p)).y = p.screen_rect.bottom - 79 := by
    simp [air_integrate, hy, hv]
  have h2 : (air_relabel (air_integrate p)).screen_rect = p.screen_rect := by
    simp [air_integrate]
  unfold update_physics_air air_collide
  rw [if_pos (by rw [h1, h2]; linarith)]
  unfold respawn_at_top
  simp [h2, air_integrate]

/-- Witness for C2 on a concrete monitor: the pet respawns at
`(1920/2 - 64, -128)` in `drop` with `vy = 2`. -/
theorem abyss_recovery_c2_witness :
    (({ initPet ⟨0, 1920, 0, 1080⟩ 300 1001 PetState.drop with vy := 0 } : Pet).state =
       PetState.drop ∧
     ({ initPet ⟨0, 1920, 0, 1080⟩ 300 1001 PetState.drop with vy := 0 } : Pet).y =
       (1080 : ℚ) - 79) ∧
    (update_physics_air { initPet ⟨0, 1920, 0, 1080⟩ 300 1001 PetState.drop with
       vy := 0 }).x = 896 ∧
    (update_physics_air { initPet ⟨0, 1920, 0, 1080⟩ 300 1001 PetState.drop with
       vy := 0 }).y = -128 ∧
    (update_physics_air { initPet ⟨0, 1920, 0, 1080⟩ 300 1001 PetState.drop with
       vy := 0 }).state = PetState.drop ∧
    (update_physics_air { initPet ⟨0, 1920, 0, 1080⟩ 300 1001 PetState.drop with
       vy := 0 }).vy = 2 := by
  have h := abyss_recovery_c2
    { initPet ⟨0, 1920, 0, 1080⟩ 300 1001 PetState.drop with vy := 0 }
    (by decide) (by norm_num [initPet]) (by norm_num [initPet])
  refine ⟨⟨by decide, by norm_num [initPet]⟩, ?_, ?_, h.2.2.1, h.2.2.2.1⟩
  · have h1 := h.1
    norm_num [Rect.centerX, initPet] at h1 ⊢
    exact h1
  · have h2 := h.2.1
    norm_num [initPet] at h2 ⊢
    exact h2

/-- Claim C9. Immediately after every state transition (a `set_state` call
whose new state differs from the current state), `frame_index = 0` and
`frame_timer = 0`. -/
theorem set_state_resets_counters_c9 (p : Pet) (s : PetState) (h : s ≠ p.state) :
    (set_state s p).frame_index = 0 ∧ (set_state s p).frame_timer = 0 := by
  have h1 : ¬(p.state = s) := fun hc => h hc.symm
  simp only [set_state, update_image_clamp, if_neg h1]
  split <;> split <;> simp

/-- Witness for C9 at a concrete transition `idle → walk`. -/
theorem set_state_resets_counters_c9_witness :
    PetState.walk ≠ ({ initPet ⟨0, 1920, 0, 1080⟩ 3 4 PetState.idle with
        frame_index := 0, frame_timer := 60 } : Pet).state ∧
    (set_state PetState.walk { initPet ⟨0, 1920, 0, 1080⟩ 3 4 PetState.idle with
        frame_index := 0, frame_timer := 60 }).frame_index = 0 ∧
    (set_state PetState.walk { initPet ⟨0, 1920, 0, 1080⟩ 3 4 PetState.idle with
        frame_index := 0, frame_timer := 60 }).frame_timer = 0 :=
  ⟨by decide,
   set_state_resets_counters_c9
     { initPet ⟨0, 1920, 0, 1080⟩ 3 4 PetState.idle with frame_index := 0, frame_timer := 60 }
     PetState.walk (by decide)⟩

/-- Claim C10. `set_state` with the current state is a complete no-op (the
whole record is unchanged, hence state, `frame_index` and `frame_timer`
are preserved), so re-entering the current state never restarts the
running animation; in particular `respawn_at_top` fired while already in
`drop` preserves the animation phase. -/
theorem set_state_same_noop_c10 :
    (∀ p : Pet, set_state p.state p = p) ∧
    (∀ p : Pet, p.state = PetState.drop →
       (respawn_at_top p).frame_index = p.frame_index ∧
       (respawn_at_top p).frame_timer = p.frame_timer ∧
       (respawn_at_top p).state = PetState.drop) := by
  constructor
  · intro p
    simp [set_state]
  · intro p h
    unfold respawn_at_top
    simp only [set_state, update_image_clamp]
    rw [if_pos (by simpa using h)]
    simp [h]

/-- Witness for C10's respawn part at a concrete pet already in `drop`. -/
theorem set_state_same_noop_c10_witness :
    ({ initPet ⟨0, 1920, 0, 1080⟩ 3 4 PetState.drop with
        frame_index := 0, frame_timer := 90 } : Pet).state = PetState.drop ∧
    (respawn_at_top { initPet ⟨0, 1920, 0, 1080⟩ 3 4 PetState.drop with
        frame_index := 0, frame_timer := 90 }).frame_timer =
      ({ initPet ⟨0, 1920, 0, 1080⟩ 3 4 PetState.drop with
        frame_index := 0, frame_timer := 90 } : Pet).frame_timer :=
  ⟨by decide,
   (set_state_same_noop_c10.2
     { initPet ⟨0, 1920, 0, 1080⟩ 3 4 PetState.drop with frame_index := 0, frame_timer := 90 }
     (by decide)).2.1⟩

/-- Claim C7. `spawn_clone` at or above the configured maximum is a silent
no-op (the manager, hence the live list, is unchanged and no error is
possible — the function is total); below the maximum it appends exactly
one new character at the origin position plus `(+20, -20)`, seeded with
horizontal velocity `±2` in the origin's facing direction and upward
vertical velocity `-5`, in state `drop`, and the live count grows by
one. -/
theorem spawn_capacity_c7 (geom : Rect) (src : Pet) (m : Manager) :
    (m.pets.length ≥ m.maxPets → spawn_clone geom src m = m) ∧
    (m.pets.length < m.maxPets →
       (spawn_clone geom src m).pets.length = m.pets.length + 1 ∧
       ∃ np : Pet, (spawn_clone geom src m).pets = m.pets ++ [np] ∧
         np.x = src.x + 20 ∧ np.y = src.y - 20 ∧
         np.vx = (if src.look_right then 2 else -2) ∧ np.vy = -5 ∧
         np.state = PetState.drop) := by
  constructor
  · intro h
    have : ¬can_spawn m := by simp [can_spawn]; omega
    simp [spawn_clone, this]
  · intro h
    have hc : can_spawn m := by simpa [can_spawn] using h
    simp only [spawn_clone, hc, not_true_eq_false, if_false]
    refine ⟨by simp, ?_⟩
    exact ⟨_, rfl, rfl, rfl, rfl, rfl, rfl⟩

/-- Witness for C7: a manager at capacity 2 with 2 live pets refuses,
and one with 1 live pet accepts and reaches count 2. -/
theorem spawn_capacity_c7_witness :
    (([initPet ⟨0, 1920, 0, 1080⟩ 1 2 PetState.idle,
       initPet ⟨0, 1920, 0, 1080⟩ 3 4 PetState.idle] : List Pet).length ≥ 2 ∧
     spawn_clone ⟨0, 1920, 0, 1080⟩ (initPet ⟨0, 1920, 0, 1080⟩ 5 6 PetState.idle)
       ⟨[initPet ⟨0, 1920, 0, 1080⟩ 1 2 PetState.idle,
         initPet ⟨0, 1920, 0, 1080⟩ 3 4 PetState.idle], 2⟩ =
       ⟨[initPet ⟨0, 1920, 0, 1080⟩ 1 2 PetState.idle,
         initPet ⟨0, 1920, 0, 1080⟩ 3 4 PetState.idle], 2⟩) ∧
    (([initPet ⟨0, 1920, 0, 1080⟩ 1 2 PetState.idle] : List Pet).length < 2 ∧
     (spawn_clone ⟨0, 1920, 0, 1080⟩ (initPet ⟨0, 1920, 0, 1080⟩ 5 6 PetState.idle)
       ⟨[initPet ⟨0, 1920, 0, 1080⟩ 1 2 PetState.idle], 2⟩).pets.length = 2) :=
  ⟨⟨by decide,
    (spawn_capacity_c7 ⟨0, 1920, 0, 1080⟩ (initPet ⟨0, 1920, 0, 1080⟩ 5 6 PetState.idle)
      ⟨[initPet ⟨0, 1920, 0, 1080⟩ 1 2 PetState.idle,
        initPet ⟨0, 1920, 0, 1080⟩ 3 4 PetState.idle], 2⟩).1 (by decide)⟩,
   ⟨by decide,
    ((spawn_capacity_c7 ⟨0, 1920, 0, 1080⟩ (initPet ⟨0, 1920, 0, 1080⟩ 5 6 PetState.idle)
      ⟨[initPet ⟨0, 1920, 0, 1080⟩ 1 2 PetState.idle], 2⟩).2 (by decide)).1⟩⟩

/-- Claim C4. On a sequence-complete AI decision from `idle` with
`wanderMode` none and the character not pinned, the single uniform draw
`r` maps as: `r < 0.05` attempts `born` (entering `born` exactly when
the population manager has capacity, otherwise changing nothing);
`0.05 ≤ r < 0.30` → `walk`; `0.30 ≤ r < 0.35` → `run`;
`0.35 ≤ r < 0.40` → `sit`; `0.40 ≤ r < 0.50` flips the facing only;
`r ≥ 0.50` changes nothing. -/
theorem ai_idle_distribution_c4 (r : ℚ) (canSp : Bool) (p : Pet)
    (hs : p.state = PetState.idle) (hw : p.wander_mode = WanderMode.none)
    (hf : p.is_fixed = false) :
    (r < 1/20 →
       (canSp = true → (decide_ai r canSp p).state = PetState.born) ∧
       (canSp = false → decide_ai r canSp p = p)) ∧
    (1/20 ≤ r → r < 3/10 → (decide_ai r canSp p).state = PetState.walk) ∧
    (3/10 ≤ r → r < 7/20 → (decide_ai r canSp p).state = PetState.run) ∧
    (7/20 ≤ r → r < 2/5 → (decide_ai r canSp p).state = PetState.sit) ∧
    (2/5 ≤ r → r < 1/2 →
       decide_ai r canSp p = { p with look_right := !p.look_right }) ∧
    (1/2 ≤ r → decide_ai r canSp p = p) := by
  refine ⟨fun h => ?_, fun h1 h2 => ?_, fun h1 h2 => ?_, fun h1 h2 => ?_,
    fun h1 h2 => ?_, fun h1 => ?_⟩
  · have hb : r < 5/100 := by linarith
    constructor <;> intro hc <;> simp [decide_ai, hs, hw, hf, hb, hc]
  · have hb1 : ¬(r < 5/100) := by linarith
    have hb2 : r < 3/10 := by linarith
    simp [decide_ai, hs, hw, hf, hb1, hb2]
  · have hb1 : ¬(r < 5/100) := by linarith
    have hb2 : ¬(r < 3/10) := by linarith
    have hb3 : r < 35/100 := by linarith
    simp [decide_ai, hs, hw, hf, hb1, hb2, hb3]
  · have hb1 : ¬(r < 5/100) := by linarith
    have hb2 : ¬(r < 3/10) := by linarith
    have hb3 : ¬(r < 35/100) := by linarith
    have hb4 : r < 4/10 := by linarith
    simp [decide_ai, hs, hw, hf, hb1, hb2, hb3, hb4]
  · have hb1 : ¬(r < 5/100) := by linarith
    have hb2 : ¬(r < 3/10) := by linarith
    have hb3 : ¬(r < 35/100) := by linarith
    have hb4 : ¬(r < 4/10) := by linarith
    have hb5 : r < 1/2 := by linarith
    simp [decide_ai, hs, hw, hf, hb1, hb2, hb3, hb4, hb5]
    intro hcon; exfalso; linarith
  · have hb1 : ¬(r < 5/100) := by linarith
    have hb2 : ¬(r < 3/10) := by linarith
    have hb3 : ¬(r < 35/100) := by linarith
    have hb4 : ¬(r < 4/10) := by linarith
    have hb5 : ¬(r < 1/2) := by linarith
    simp [decide_ai, hs, hw, hf, hb1, hb2, hb3, hb4, hb5]
    intro hcon; exfalso; linarith

/-- Witness for C4 at `r = 0.32`: the decision is `run`. -/
theorem ai_idle_distribution_c4_witness :
    ((initPet ⟨0, 1920, 0, 1080⟩ 300 901 PetState.idle).state = PetState.idle ∧
     (3 : ℚ)/10 ≤ 32/100 ∧ (32 : ℚ)/100 < 7/20) ∧
    (decide_ai (32/100) true (initPet ⟨0, 1920, 0, 1080⟩ 300 901 PetState.idle)).state =
      PetState.run :=
  ⟨⟨by decide, by norm_num, by norm_num⟩,
   (ai_idle_distribution_c4 (32/100) true (initPet ⟨0, 1920, 0, 1080⟩ 300 901 PetState.idle)
     (by decide) (by decide) (by decide)).2.2.1 (by norm_num) (by norm_num)⟩

/-- Claim C6, counterexample. The claim predicts that a floor walker
hitting a side edge has its facing flipped to point inward (away from
the edge).  A pet walking left (`look_right = false`) from `x = 1`
reaches the left edge in one floor tick (`x` clamps to `left = 0`,
state becomes `wall_idle`), yet its facing remains `look_right = false`:
the code writes `look_right = False` at the left edge — facing the
edge, not away from it. -/
theorem floor_edge_facing_c6_cex :
    (update_physics_floor
      { x := 1, y := 901, vx := 0, vy := 0, gravity := 2,
        state := PetState.walk, look_right := false, is_fixed := false,
        wander_mode := WanderMode.none, frame_index := 0, frame_timer := 0,
        is_dragging := false, ceiling_dist := 0,
        screen_rect := ⟨0, 1920, 0, 1080⟩ }).x = 0 ∧
    (update_physics_floor
      { x := 1, y := 901, vx := 0, vy := 0, gravity := 2,
        state := PetState.walk, look_right := false, is_fixed := false,
        wander_mode := WanderMode.none, frame_index := 0, frame_timer := 0,
        is_dragging := false, ceiling_dist := 0,
        screen_rect := ⟨0, 1920, 0, 1080⟩ }).state = PetState.wall_idle ∧
    ¬(update_physics_floor
      { x := 1, y := 901, vx := 0, vy := 0, gravity := 2,
        state := PetState.walk, look_right := false, is_fixed := false,
        wander_mode := WanderMode.none, frame_index := 0, frame_timer := 0,
        is_dragging := false, ceiling_dist := 0,
        screen_rect := ⟨0, 1920, 0, 1080⟩ }).look_right = true := by
  refine ⟨?_, ?_, ?_⟩ <;>
  · norm_num [update_physics_floor, floor_edges, RIGHT_WALL_OFFSET]
    try rw [if_neg (by decide)]
    try simp [set_state, update_image_clamp, ACTIONS]

/-- Claim C6, amended. When a character in `walk`, `run` or `ie_walk`
reaches a side edge during a floor physics tick, `x` is clamped to that
edge and the state becomes `wall_climb` when `wanderMode` is `full` and
`wall_idle` otherwise; the facing is set to point at the edge that was
hit (`look_right = false` at the left edge, `true` at the right edge) —
outward, not inward. -/
theorem floor_edge_transition_c6 (p : Pet)
    (hs : p.state = PetState.walk ∨ p.state = PetState.run ∨
          p.state = PetState.ie_walk) :
    (let speed : ℚ := if p.is_fixed then 0 else if p.state = PetState.run then 5 else 2
     let x1 := p.x + (if p.look_right then speed else -speed)
     let q := update_physics_floor p
     (x1 ≤ p.screen_rect.left →
        q.x = p.screen_rect.left ∧ q.look_right = false ∧
        (p.wander_mode = WanderMode.full → q.state = PetState.wall_climb) ∧
        (p.wander_mode ≠ WanderMode.full → q.state = PetState.wall_idle)) ∧
     (¬(x1 ≤ p.screen_rect.left) →
      p.screen_rect.right - 128 - RIGHT_WALL_OFFSET ≤ x1 →
        q.x = p.screen_rect.right - 128 - RIGHT_WALL_OFFSET ∧ q.look_right = true ∧
        (p.wander_mode = WanderMode.full → q.state = PetState.wall_climb) ∧
        (p.wander_mode ≠ WanderMode.full → q.state = PetState.wall_idle))) := by
  refine ⟨fun hl => ?_, fun hnl hr => ?_⟩
  · simp only [update_physics_floor, floor_edges, if_pos hs]
    rw [if_pos (by simpa using hl)]
    refine ⟨?_, ?_, fun hw => by simp [hw], fun hw => by simp [hw]⟩ <;>
      rcases hwm : p.wander_mode <;> simp [hwm]
  · simp only [update_physics_floor, floor_edges, if_pos hs]
    rw [if_neg (by simpa using hnl), if_pos (by simpa using hr)]
    refine ⟨?_, ?_, fun hw => by simp [hw], fun hw => by simp [hw]⟩ <;>
      rcases hwm : p.wander_mode <;> simp [hwm]

/-- Witness for amended C6: the concrete left-edge walker of the
counterexample ends clamped at the left edge in `wall_idle`, facing the
edge. -/
theorem floor_edge_transition_c6_witness :
    (({ x := 1, y := 901, vx := 0, vy := 0, gravity := 2,
        state := PetState.walk, look_right := false, is_fixed := false,
        wander_mode := WanderMode.none, frame_index := 0, frame_timer := 0,
        is_dragging := false, ceiling_dist := 0,
        screen_rect := ⟨0, 1920, 0, 1080⟩ } : Pet).state = PetState.walk) ∧
    (update_physics_floor
      { x := 1, y := 901, vx := 0, vy := 0, gravity := 2,
        state := PetState.walk, look_right := false, is_fixed := false,
        wander_mode := WanderMode.none, frame_index := 0, frame_timer := 0,
        is_dragging := false, ceiling_dist := 0,
        screen_rect := ⟨0, 1920, 0, 1080⟩ }).x = 0 ∧
    (update_physics_floor
      { x := 1, y := 901, vx := 0, vy := 0, gravity := 2,
        state := PetState.walk, look_right := false, is_fixed := false,
        wander_mode := WanderMode.none, frame_index := 0, frame_timer := 0,
        is_dragging := false, ceiling_dist := 0,
        screen_rect := ⟨0, 1920, 0, 1080⟩ }).look_right = false := by
  have h := (floor_edge_transition_c6
    { x := 1, y := 901, vx := 0, vy := 0, gravity := 2,
      state := PetState.walk, look_right := false, is_fixed := false,
      wander_mode := WanderMode.none, frame_index := 0, frame_timer := 0,
      is_dragging := false, ceiling_dist := 0,
      screen_rect := ⟨0, 1920, 0, 1080⟩ } (Or.inl (by decide))).1
    (by norm_num; rw [if_neg (by decide)]; norm_num)
  exact ⟨by decide, by simpa using h.1, h.2.1⟩

/-- Claim C3. When a `wall_climb` character reaches the monitor top
during a wall physics tick (here: not pinned, and the 5-pixel climb
step carries `y` to or above `boundsRect.top`, on a monitor wide enough
for its two walls to be distinct), the next state is selected by
`wanderMode`: `wall` goes to `wall_descend`; `ceiling` or `full` enters
`ceiling_walk` anchored just inside the wall that was climbed; with no
patrol mode, a weighted random choice on the draw `u` picks `wall_idle`
for `u < 0.2` (weight 20%), `wall_descend` for `0.2 ≤ u < 0.5` (30%),
`ceiling_walk` for `0.5 ≤ u < 0.8` (30%), and jump-off for `u ≥ 0.8`
(20%), where jump-off sets the upward velocity `vy = -4` and an outward
`vx = ±8`, entering `drag_throw` off the left wall and `fly` off the
right wall. -/
theorem wall_top_policy_c3 (u : ℚ) (p : Pet)
    (hs : p.state = PetState.wall_climb) (hf : p.is_fixed = false)
    (htop : p.y - 5 ≤ p.screen_rect.top)
    (hwide : p.screen_rect.left + 50 ≤ p.screen_rect.right - 128 - RIGHT_WALL_OFFSET) :
    (p.wander_mode = WanderMode.wall →
       (update_physics_wall u p).state = PetState.wall_descend) ∧
    ((p.wander_mode = WanderMode.ceiling ∨ p.wander_mode = WanderMode.full) →
       (update_physics_wall u p).state = PetState.ceiling_walk ∧
       (p.x < p.screen_rect.left + 64 →
          (update_physics_wall u p).x = p.screen_rect.left + 5 ∧
          (update_physics_wall u p).look_right = true) ∧
       (¬(p.x < p.screen_rect.left + 64) →
          (update_physics_wall u p).x = p.screen_rect.right - 128 - RIGHT_WALL_OFFSET - 5 ∧
          (update_physics_wall u p).look_right = false)) ∧
    (p.wander_mode = WanderMode.none →
       (u < 1/5 → (update_physics_wall u p).state = PetState.wall_idle) ∧
       (1/5 ≤ u → u < 1/2 → (update_physics_wall u p).state = PetState.wall_descend) ∧
       (1/2 ≤ u → u < 4/5 → (update_physics_wall u p).state = PetState.ceiling_walk) ∧
       (4/5 ≤ u →
          (update_physics_wall u p).vy = -4 ∧
          (p.x < p.screen_rect.left + 64 →
             (update_physics_wall u p).state = PetState.drag_throw ∧
             (update_physics_wall u p).vx = 8 ∧
             (update_physics_wall u p).look_right = true ∧
             (update_physics_wall u p).x = p.screen_rect.left + 10) ∧
          (¬(p.x < p.screen_rect.left + 64) →
             (update_physics_wall u p).state = PetState.fly ∧
             (update_physics_wall u p).vx = -8 ∧
             (update_physics_wall u p).look_right = false ∧
             (update_physics_wall u p).x =
               p.screen_rect.right - 128 - RIGHT_WALL_OFFSET - 10))) := by
  by_cases hx : p.x < p.screen_rect.left + 64
  · have hq : update_physics_wall u p =
        wall_climb_top u { p with x := p.screen_rect.left, y := p.screen_rect.top,
                                  look_right := false } := by
      have hsnap : wall_snap p =
          { p with x := p.screen_rect.left, look_right := false } := by
        unfold wall_snap; rw [if_pos hx]
      simp [update_physics_wall, hsnap, hs, hf]
      intro hcon; exfalso; linarith
    rw [hq]
    refine ⟨fun hwm => by simp [wall_climb_top, hwm],
            fun hwm => ?_,
            fun hwm => ⟨fun hu => ?_, fun hu1 hu2 => ?_, fun hu1 hu2 => ?_,
                        fun hu => ?_⟩⟩
    · refine ⟨?_, fun _ => ⟨?_, ?_⟩, fun hcon => absurd hx hcon⟩ <;>
        (rcases hwm with h | h <;> simp [wall_climb_top, to_ceiling, h])
    · have h20 : u * 100 < 20 := by linarith
      simp [wall_climb_top, hwm, h20]
    · have h20 : ¬(u * 100 < 20) := by linarith
      have h50 : u * 100 < 50 := by linarith
      simp [wall_climb_top, hwm, h20, h50]
    · have h20 : ¬(u * 100 < 20) := by linarith
      have h50 : ¬(u * 100 < 50) := by linarith
      have h80 : u * 100 < 80 := by linarith
      simp [wall_climb_top, to_ceiling, hwm, h20, h50, h80]
    · have h20 : ¬(u * 100 < 20) := by linarith
      have h50 : ¬(u * 100 < 50) := by linarith
      have h80 : ¬(u * 100 < 80) := by linarith
      refine ⟨?_, fun _ => ⟨?_, ?_, ?_, ?_⟩, fun hcon => absurd hx hcon⟩ <;>
        simp [wall_climb_top, hwm, h20, h50, h80]
  · have hnear : ¬(|p.screen_rect.right - 128 - RIGHT_WALL_OFFSET -
        p.screen_rect.left| < 50) := by
      rw [abs_of_nonneg (by linarith)]
      linarith
    have hq : update_physics_wall u p =
        wall_climb_top u { p with x := p.screen_rect.right - 128 - RIGHT_WALL_OFFSET,
                                  y := p.screen_rect.top, look_right := true } := by
      have hsnap : wall_snap p =
          { p with x := p.screen_rect.right - 128 - RIGHT_WALL_OFFSET,
                   look_right := true } := by
        unfold wall_snap; rw [if_neg hx]
      simp [update_physics_wall, hsnap, hs, hf]
      intro hcon; exfalso; linarith
    rw [hq]
    refine ⟨fun hwm => by simp [wall_climb_top, hwm],
            fun hwm => ?_,
            fun hwm => ⟨fun hu => ?_, fun hu1 hu2 => ?_, fun hu1 hu2 => ?_,
                        fun hu => ?_⟩⟩
    · refine ⟨?_, fun hcon => absurd hcon hx, fun _ => ⟨?_, ?_⟩⟩ <;>
        (rcases hwm with h | h <;> simp [wall_climb_top, to_ceiling, h, hnear])
    · have h20 : u * 100 < 20 := by linarith
      simp [wall_climb_top, hwm, h20]
    · have h20 : ¬(u * 100 < 20) := by linarith
      have h50 : u * 100 < 50 := by linarith
      simp [wall_climb_top, hwm, h20, h50]
    · have h20 : ¬(u * 100 < 20) := by linarith
      have h50 : ¬(u * 100 < 50) := by linarith
      have h80 : u * 100 < 80 := by linarith
      simp [wall_climb_top, to_ceiling, hwm, h20, h50, h80, hnear]
    · have h20 : ¬(u * 100 < 20) := by linarith
      have h50 : ¬(u * 100 < 50) := by linarith
      have h80 : ¬(u * 100 < 80) := by linarith
      refine ⟨?_, fun hcon => absurd hcon hx, fun _ => ⟨?_, ?_, ?_, ?_⟩⟩ <;>
        simp [wall_climb_top, hwm, h20, h50, h80]

/-- Witness for C3: a left-wall climber at the top in wander mode
`wall` turns around into `wall_descend`. -/
theorem wall_top_policy_c3_witness :
    (({ x := 10, y := 3, vx := 0, vy := 0, gravity := 2,
        state := PetState.wall_climb, look_right := false, is_fixed := false,
        wander_mode := WanderMode.wall, frame_index := 0, frame_timer := 0,
        is_dragging := false, ceiling_dist := 0,
        screen_rect := ⟨0, 1920, 0, 1080⟩ } : Pet).state = PetState.wall_climb ∧
     ({ x := 10, y := 3, vx := 0, vy := 0, gravity := 2,
        state := PetState.wall_climb, look_right := false, is_fixed := false,
        wander_mode := WanderMode.wall, frame_index := 0, frame_timer := 0,
        is_dragging := false, ceiling_dist := 0,
        screen_rect := ⟨0, 1920, 0, 1080⟩ } : Pet).wander_mode = WanderMode.wall) ∧
    (update_physics_wall 0
      { x := 10, y := 3, vx := 0, vy := 0, gravity := 2,
        state := PetState.wall_climb, look_right := false, is_fixed := false,
        wander_mode := WanderMode.wall, frame_index := 0, frame_timer := 0,
        is_dragging := false, ceiling_dist := 0,
        screen_rect := ⟨0, 1920, 0, 1080⟩ }).state = PetState.wall_descend :=
  ⟨⟨by decide, by decide⟩,
   (wall_top_policy_c3 0
     { x := 10, y := 3, vx := 0, vy := 0, gravity := 2,
       state := PetState.wall_climb, look_right := false, is_fixed := false,
       wander_mode := WanderMode.wall, frame_index := 0, frame_timer := 0,
       is_dragging := false, ceiling_dist := 0,
       screen_rect := ⟨0, 1920, 0, 1080⟩ }
     (by decide) (by decide) (by norm_num) (by norm_num [RIGHT_WALL_OFFSET])).1
     (by decide)⟩

/-- Helper: the relabel stage's state outcome is a pure function of the
current (already damped) `vx`, for any starting state. -/
theorem air_relabel_state (q : Pet) :
    (air_relabel q).state =
      (if q.vx < -2 then PetState.fly
       else if q.vx > 2 then PetState.drag_throw else PetState.drop) := by
  unfold air_relabel
  split_ifs <;> simp_all

/-- Helper: the relabel stage's facing outcome, given the facing-state
consistency that every entry into `fly`/`drag_throw` establishes. -/
theorem air_relabel_look (q : Pet)
    (hfly : q.state = PetState.fly → q.look_right = false)
    (hthrow : q.state = PetState.drag_throw → q.look_right = true) :
    (air_relabel q).look_right =
      (if q.vx < -2 then false
       else if q.vx > 2 then true else q.look_right) := by
  unfold air_relabel
  split_ifs <;> simp_all

/-- Claim C5. On an air-mode physics tick, after integrating position and
velocity the state is relabeled purely from the updated
`vx' = vx * 0.98`: `vx' < -2` gives `fly` facing left, `vx' > 2` gives
`drag_throw` facing right, otherwise `drop` (facing untouched); the
facing equalities assume the consistency invariant that a pet already in
`fly` faces left and one in `drag_throw` faces right, which every entry
into those states establishes.  The relabeling happens before the
abyss, floor and wall-edge checks of the same tick: when the floor
check fires the final state is `idle`, when a wall check fires it is
`wall_idle`, and when the abyss fires it is `drop` — each overriding
the relabel, while in the trigger-free case the relabel is the final
word (conjuncts two to four). -/
theorem air_relabel_policy_c5 (p : Pet)
    (hfly : p.state = PetState.fly → p.look_right = false)
    (hthrow : p.state = PetState.drag_throw → p.look_right = true) :
    (p.y + p.vy ≤ p.screen_rect.bottom - 80 →
     p.y + p.vy < p.screen_rect.bottom - 128 - FLOOR_OFFSET →
     p.screen_rect.left < p.x + p.vx →
     p.x + p.vx < p.screen_rect.right - 128 - RIGHT_WALL_OFFSET →
       (update_physics_air p).state =
         (if p.vx * (98/100) < -2 then PetState.fly
          else if p.vx * (98/100) > 2 then PetState.drag_throw else PetState.drop) ∧
       (update_physics_air p).look_right =
         (if p.vx * (98/100) < -2 then false
          else if p.vx * (98/100) > 2 then true else p.look_right) ∧
       (update_physics_air p).vx = p.vx * (98/100)) ∧
    (p.y + p.vy ≤ p.screen_rect.bottom - 80 →
     p.screen_rect.bottom - 128 - FLOOR_OFFSET ≤ p.y + p.vy →
     p.screen_rect.left < p.x + p.vx →
     p.x + p.vx < p.screen_rect.right - 128 - RIGHT_WALL_OFFSET →
       (update_physics_air p).state = PetState.idle) ∧
    (p.y + p.vy ≤ p.screen_rect.bottom - 80 →
     p.x + p.vx ≤ p.screen_rect.left →
       (update_physics_air p).state = PetState.wall_idle) ∧
    (p.screen_rect.bottom - 80 < p.y + p.vy →
       (update_physics_air p).state = PetState.drop) := by
  have hy : (air_relabel (air_integrate p)).y = p.y + p.vy := by
    simp [air_integrate]
  have hx : (air_relabel (air_integrate p)).x = p.x + p.vx := by
    simp [air_integrate]
  have hvx : (air_relabel (air_integrate p)).vx = p.vx * (98/100) := by
    simp [air_integrate]
  have hrect : (air_relabel (air_integrate p)).screen_rect = p.screen_rect := by
    simp [air_integrate]
  have hst : (air_relabel (air_integrate p)).state =
      (if p.vx * (98/100) < -2 then PetState.fly
       else if p.vx * (98/100) > 2 then PetState.drag_throw else PetState.drop) := by
    rw [air_relabel_state]
    simp [air_integrate]
  have hlk : (air_relabel (air_integrate p)).look_right =
      (if p.vx * (98/100) < -2 then false
       else if p.vx * (98/100) > 2 then true else p.look_right) := by
    rw [air_relabel_look (air_integrate p) (by simpa [air_integrate] using hfly)
      (by simpa [air_integrate] using hthrow)]
    simp [air_integrate]
  unfold update_physics_air
  simp only [air_collide]
  refine ⟨fun h1 h2 h3 h4 => ?_, fun h1 h2 h3 h4 => ?_, fun h1 h2 => ?_, fun h1 => ?_⟩
  · rw [if_neg (show ¬((air_relabel (air_integrate p)).y >
        (air_relabel (air_integrate p)).screen_rect.bottom - 80) by
        rw [hy, hrect]; linarith)]
    rw [if_neg (show ¬((air_relabel (air_integrate p)).y ≥
        (air_relabel (air_integrate p)).screen_rect.bottom - 128 - FLOOR_OFFSET) by
        rw [hy, hrect]; push_neg; linarith)]
    rw [if_neg (show ¬((air_relabel (air_integrate p)).x ≤
        (air_relabel (air_integrate p)).screen_rect.left) by
        rw [hx, hrect]; push_neg; linarith)]
    rw [if_neg (show ¬((air_relabel (air_integrate p)).x ≥
        (air_relabel (air_integrate p)).screen_rect.right - 128 - RIGHT_WALL_OFFSET) by
        rw [hx, hrect]; push_neg; linarith)]
    exact ⟨hst, hlk, hvx⟩
  · rw [if_neg (show ¬((air_relabel (air_integrate p)).y >
        (air_relabel (air_integrate p)).screen_rect.bottom - 80) by
        rw [hy, hrect]; linarith)]
    rw [if_pos (show (air_relabel (air_integrate p)).y ≥
        (air_relabel (air_integrate p)).screen_rect.bottom - 128 - FLOOR_OFFSET by
        rw [hy, hrect]; linarith)]
    rw [if_neg (show ¬((set_state PetState.idle
        { air_relabel (air_integrate p) with
          y := (air_relabel (air_integrate p)).screen_rect.bottom - 128 - FLOOR_OFFSET,
          vx := 0, vy := 0 }).x ≤ (set_state PetState.idle
        { air_relabel (air_integrate p) with
          y := (air_relabel (air_integrate p)).screen_rect.bottom - 128 - FLOOR_OFFSET,
          vx := 0, vy := 0 }).screen_rect.left) by
        simp [air_integrate]; linarith)]
    rw [if_neg (show ¬((set_state PetState.idle
        { air_relabel (air_integrate p) with
          y := (air_relabel (air_integrate p)).screen_rect.bottom - 128 - FLOOR_OFFSET,
          vx := 0, vy := 0 }).x ≥ (set_state PetState.idle
        { air_relabel (air_integrate p) with
          y := (air_relabel (air_integrate p)).screen_rect.bottom - 128 - FLOOR_OFFSET,
          vx := 0, vy := 0 }).screen_rect.right - 128 - RIGHT_WALL_OFFSET) by
        simp [air_integrate]; linarith)]
    simp
  · rw [if_neg (show ¬((air_relabel (air_integrate p)).y >
        (air_relabel (air_integrate p)).screen_rect.bottom - 80) by
        rw [hy, hrect]; linarith)]
    by_cases hfl : (air_relabel (air_integrate p)).y ≥
        (air_relabel (air_integrate p)).screen_rect.bottom - 128 - FLOOR_OFFSET
    · rw [if_pos hfl]
      rw [if_pos (show (set_state PetState.idle
          { air_relabel (air_integrate p) with
            y := (air_relabel (air_integrate p)).screen_rect.bottom - 128 - FLOOR_OFFSET,
            vx := 0, vy := 0 }).x ≤ (set_state PetState.idle
          { air_relabel (air_integrate p) with
            y := (air_relabel (air_integrate p)).screen_rect.bottom - 128 - FLOOR_OFFSET,
            vx := 0, vy := 0 }).screen_rect.left by
          simp [air_integrate]; linarith)]
      simp
    · rw [if_neg hfl]
      rw [if_pos (show (air_relabel (air_integrate p)).x ≤
          (air_relabel (air_integrate p)).screen_rect.left by
          rw [hx, hrect]; linarith)]
      simp
  · rw [if_pos (show (air_relabel (air_integrate p)).y >
        (air_relabel (air_integrate p)).screen_rect.bottom - 80 by
        rw [hy, hrect]; linarith)]
    simp [respawn_at_top]


/-- Witness for C5: a `drop` pet thrown hard left (`vx = -10`) in open
air relabels to `fly` facing left in one tick. -/
theorem air_relabel_policy_c5_witness :
    ((-10 : ℚ) * (98/100) < -2) ∧
    (update_physics_air
      { x := 500, y := 200, vx := -10, vy := 0, gravity := 2,
        state := PetState.drop, look_right := true, is_fixed := false,
        wander_mode := WanderMode.none, frame_index := 0, frame_timer := 0,
        is_dragging := false, ceiling_dist := 0,
        screen_rect := ⟨0, 1920, 0, 1080⟩ }).state = PetState.fly ∧
    (update_physics_air
      { x := 500, y := 200, vx := -10, vy := 0, gravity := 2,
        state := PetState.drop, look_right := true, is_fixed := false,
        wander_mode := WanderMode.none, frame_index := 0, frame_timer := 0,
        is_dragging := false, ceiling_dist := 0,
        screen_rect := ⟨0, 1920, 0, 1080⟩ }).look_right = false := by
  have h := (air_relabel_policy_c5
    { x := 500, y := 200, vx := -10, vy := 0, gravity := 2,
      state := PetState.drop, look_right := true, is_fixed := false,
      wander_mode := WanderMode.none, frame_index := 0, frame_timer := 0,
      is_dragging := false, ceiling_dist := 0,
      screen_rect := ⟨0, 1920, 0, 1080⟩ } (by decide) (by decide)).1
    (by norm_num [FLOOR_OFFSET]) (by norm_num [FLOOR_OFFSET])
    (by norm_num) (by norm_num [RIGHT_WALL_OFFSET])
  refine ⟨by norm_num, ?_, ?_⟩
  · have h1 := h.1
    rw [if_pos (by norm_num)] at h1
    exact h1
  · have h2 := h.2.1
    rw [if_pos (by norm_num)] at h2
    exact h2

/-- The frame-index invariant of the spec: `frame_index` is a valid
index into the current state's frame sequence. -/
def FrameOK (p : Pet) : Prop := p.frame_index < (ACTIONS p.state).length

theorem actions_length_pos (s : PetState) : 0 < (ACTIONS s).length := by
  cases s <;> simp [ACTIONS, mkFrames]

theorem update_image_clamp_frameOK (p : Pet) : FrameOK (update_image_clamp p) := by
  unfold update_image_clamp FrameOK
  split_ifs with hge
  · simpa using actions_length_pos p.state
  · omega

theorem set_state_frameOK (s : PetState) (p : Pet) (h : FrameOK p) :
    FrameOK (set_state s p) := by
  by_cases hc : p.state = s
  · simpa [set_state, hc] using h
  · simp only [set_state, if_neg hc]
    exact update_image_clamp_frameOK _

theorem wall_snap_frameOK (p : Pet) (h : FrameOK p) : FrameOK (wall_snap p) := by
  unfold wall_snap
  try dsimp only
  split_ifs <;> exact h

theorem to_ceiling_frameOK (l r : ℚ) (p : Pet) (h : FrameOK p) :
    FrameOK (to_ceiling l r p) := by
  unfold to_ceiling
  try dsimp only
  split_ifs <;> exact set_state_frameOK _ _ h

theorem air_relabel_frameOK (p : Pet) (h : FrameOK p) : FrameOK (air_relabel p) := by
  unfold air_relabel
  try dsimp only
  split_ifs <;> first | exact h | exact set_state_frameOK _ _ h

theorem air_collide_frameOK (p : Pet) (h : FrameOK p) : FrameOK (air_collide p) := by
  unfold air_collide respawn_at_top
  try dsimp only
  split_ifs <;>
    first
      | exact h
      | exact set_state_frameOK _ _ h
      | exact set_state_frameOK _ _ (set_state_frameOK _ _ h)

theorem update_physics_air_frameOK (p : Pet) (h : FrameOK p) :
    FrameOK (update_physics_air p) := by
  unfold update_physics_air
  exact air_collide_frameOK _ (air_relabel_frameOK _ h)

theorem wall_idle_branch_frameOK (u : ℚ) (p : Pet) (h : FrameOK p) :
    FrameOK (wall_idle_branch u p) := by
  unfold wall_idle_branch
  try dsimp only
  split_ifs <;> first | exact h | exact set_state_frameOK _ _ h

theorem wall_climb_top_frameOK (u : ℚ) (p : Pet) (h : FrameOK p) :
    FrameOK (wall_climb_top u p) := by
  unfold wall_climb_top
  try dsimp only
  split_ifs <;>
    first
      | exact h
      | exact set_state_frameOK _ _ h
      | exact to_ceiling_frameOK _ _ _ h

theorem wall_descend_branch_frameOK (p : Pet) (h : FrameOK p) :
    FrameOK (wall_descend_branch p) := by
  unfold wall_descend_branch
  try dsimp only
  split_ifs <;> first | exact h | exact set_state_frameOK _ _ h

theorem update_physics_wall_frameOK (u : ℚ) (p : Pet) (h : FrameOK p) :
    FrameOK (update_physics_wall u p) := by
  have hs : FrameOK (wall_snap p) := wall_snap_frameOK p h
  unfold update_physics_wall
  try dsimp only
  split_ifs <;>
    first
      | exact hs
      | exact wall_idle_branch_frameOK _ _ hs
      | exact wall_climb_top_frameOK _ _ hs
      | exact wall_descend_branch_frameOK _ hs

theorem ceil_move_frameOK (p : Pet) (h : FrameOK p) : FrameOK (ceil_move p) := by
  unfold ceil_move
  try dsimp only
  split_ifs <;> exact h

theorem ceil_edges_frameOK (p : Pet) (h : FrameOK p) : FrameOK (ceil_edges p) := by
  unfold ceil_edges
  try dsimp only
  split_ifs <;> first | exact h | exact set_state_frameOK _ _ h

theorem update_physics_ceiling_frameOK (u : ℚ) (p : Pet) (h : FrameOK p) :
    FrameOK (update_physics_ceiling u p) := by
  have hm : FrameOK (ceil_move p) := ceil_move_frameOK p h
  unfold update_physics_ceiling
  try dsimp only
  split_ifs <;>
    first
      | exact set_state_frameOK _ _ hm
      | exact ceil_edges_frameOK _ hm

theorem floor_edges_frameOK (p : Pet) (h : FrameOK p) : FrameOK (floor_edges p) := by
  unfold floor_edges
  try dsimp only
  split_ifs <;> first | exact h | exact set_state_frameOK _ _ h

theorem update_physics_floor_frameOK (p : Pet) (h : FrameOK p) :
    FrameOK (update_physics_floor p) := by
  unfold update_physics_floor
  try dsimp only
  split_ifs <;> first | exact h | exact floor_edges_frameOK _ h

theorem decide_ai_frameOK (r : ℚ) (canSp : Bool) (p : Pet) (h : FrameOK p) :
    FrameOK (decide_ai r canSp p) := by
  unfold decide_ai
  try dsimp only
  split_ifs <;> first | exact h | exact set_state_frameOK _ _ h

theorem on_action_finished_frameOK (r : ℚ) (canSp : Bool) (p : Pet) (h : FrameOK p) :
    FrameOK (on_action_finished r canSp p) := by
  unfold on_action_finished
  try dsimp only
  split_ifs <;>
    first
      | exact h
      | exact set_state_frameOK _ _ h
      | exact decide_ai_frameOK _ _ _ h

theorem update_animation_frame_frameOK (r : ℚ) (canSp : Bool) (p : Pet) :
    FrameOK (update_animation_frame r canSp p) := by
  unfold update_animation_frame
  exact update_image_clamp_frameOK _

theorem update_screen_info_frameOK (rect : Rect) (p : Pet) (h : FrameOK p) :
    FrameOK (update_screen_info rect p) := by
  unfold update_screen_info
  try dsimp only
  split_ifs <;> exact h

theorem update_tick_frameOK (e : Env) (p : Pet) : FrameOK (update_tick e p) := by
  unfold update_tick
  try dsimp only
  generalize hgen : update_animation_frame e.rA e.canSp (update_screen_info e.rect p) = q
  have hq : FrameOK q := hgen ▸ update_animation_frame_frameOK _ _ _
  split_ifs <;>
    first
      | exact hq
      | (split <;>
          first
            | exact hq
            | exact update_physics_air_frameOK _ hq
            | exact update_physics_wall_frameOK _ _ hq
            | exact update_physics_ceiling_frameOK _ _ hq
            | exact update_physics_floor_frameOK _ hq)

theorem run_ticks_frameOK (envs : List Env) (p : Pet) (h : FrameOK p) :
    FrameOK (run_ticks envs p) := by
  induction envs generalizing p with
  | nil => exact h
  | cons e es ih => exact ih _ (update_tick_frameOK e p)

/-- Claim C8. Every sequence in the action table is non-empty; a freshly
constructed character satisfies the frame-index bound
`0 ≤ frame_index < len(sequence(state))` (the lower bound is inherent
to `Nat`); a single tick re-establishes the bound from any starting
record; and hence after any number of elapsed ticks from any initial
character the bound holds — so it holds in every reachable state. -/
theorem frame_index_bound_c8 :
    (∀ s : PetState, 0 < (ACTIONS s).length) ∧
    (∀ (rect : Rect) (x0 y0 : ℚ) (st : PetState), FrameOK (initPet rect x0 y0 st)) ∧
    (∀ (e : Env) (p : Pet), FrameOK (update_tick e p)) ∧
    (∀ (envs : List Env) (rect : Rect) (x0 y0 : ℚ) (st : PetState),
       FrameOK (run_ticks envs (initPet rect x0 y0 st))) :=
  ⟨actions_length_pos,
   fun rect x0 y0 st => by simpa [initPet, FrameOK] using actions_length_pos st,
   update_tick_frameOK,
   fun envs rect x0 y0 st =>
     run_ticks_frameOK envs _ (by simpa [initPet, FrameOK] using actions_length_pos st)⟩

end DesktopPet
